import Mathlib

/-!
Shallow embedding of the PayMCP-TS security pipeline scripts:
compliance-scan.py (ComplianceScanner), generate-security-report.py
(SecurityReportGenerator) and security-gate.py (SecurityGate).

File contents are modelled as lists of characters. The Python regex engine
(re.finditer and re.search) is modelled by matcher functions: for finditer a
function returning the start offsets of the non-overlapping matches, for
re.search a Boolean test. Concrete executable matchers are provided for the
rules the spec scenarios need (the aws_access_key secret rule and the four
vulnerable package rules), implemented directly from the regular expressions
in the source.
-/

/-- A secret or payment finding dictionary as built in
ComplianceScanner.scan_file. -/
structure Finding where
  type : String
  file : String
  line : Nat
  severity : String
  message : String
deriving DecidableEq, Repr

/-- A dependency issue dictionary as built in scan_dependencies (which sets a
file key) or run_npm_audit (which sets no file key, modelled as none; the via
key is never read downstream and is omitted). -/
structure DependencyIssue where
  type : String
  package : String
  file : Option String
  severity : String
  message : String
deriving DecidableEq, Repr

/-- The self.results dictionary of ComplianceScanner. The scan_timestamp field
is an opaque string never used in any computation and is omitted. -/
structure ScanResult where
  secrets_found : List Finding
  payment_issues : List Finding
  dependency_issues : List DependencyIssue
  high_severity_count : Nat
  medium_severity_count : Nat
  low_severity_count : Nat
  scanned_files : Nat
deriving DecidableEq, Repr

def ScanResult.init : ScanResult :=
  { secrets_found := [], payment_issues := [], dependency_issues := [],
    high_severity_count := 0, medium_severity_count := 0, low_severity_count := 0,
    scanned_files := 0 }

/-- A finditer-style matcher: the start offsets of the matches in a text. -/
abbrev MatcherFn := List Char → List Nat

/-- The line number computation of scan_file: the count of newline characters
in content before the match start, plus one. -/
def matchLine (content : List Char) (start : Nat) : Nat :=
  (content.take start).count '\n' + 1

/-- The secret_info dictionary built for one secret match. -/
def secretFinding (name filepath : String) (content : List Char) (start : Nat) : Finding :=
  { type := name, file := filepath, line := matchLine content start,
    severity := "high", message := "Potential " ++ name ++ " found" }

/-- Severity of a payment rule match: high if the rule is credit_card or cvv,
medium otherwise. -/
def paymentSeverity (name : String) : String :=
  if name = "credit_card" ∨ name = "cvv" then "high" else "medium"

/-- The payment_info dictionary built for one payment match. -/
def paymentFinding (name filepath : String) (content : List Char) (start : Nat) : Finding :=
  { type := name, file := filepath, line := matchLine content start,
    severity := paymentSeverity name, message := "Potential " ++ name ++ " data found" }

/-- One iteration of the secret match loop in scan_file: append the finding
and increment the high severity tally. -/
def secretStep (name filepath : String) (content : List Char)
    (st : List Finding × ScanResult) (start : Nat) : List Finding × ScanResult :=
  (st.1 ++ [secretFinding name filepath content start],
   { st.2 with high_severity_count := st.2.high_severity_count + 1 })

/-- The secret scanning loop of scan_file over all secret patterns. -/
def scanSecrets (secret_patterns : List (String × MatcherFn)) (filepath : String)
    (content : List Char) (st : List Finding × ScanResult) : List Finding × ScanResult :=
  secret_patterns.foldl (fun st p => (p.2 content).foldl (secretStep p.1 filepath content) st) st

/-- One iteration of the payment match loop in scan_file: append the finding
and increment the tally matching its severity. -/
def paymentStep (name filepath : String) (content : List Char)
    (st : List Finding × ScanResult) (start : Nat) : List Finding × ScanResult :=
  let info := paymentFinding name filepath content start
  (st.1 ++ [info],
   if info.severity = "high" then
     { st.2 with high_severity_count := st.2.high_severity_count + 1 }
   else
     { st.2 with medium_severity_count := st.2.medium_severity_count + 1 })

/-- The payment scanning loop of scan_file over all payment patterns. -/
def scanPayments (payment_patterns : List (String × MatcherFn)) (filepath : String)
    (content : List Char) (st : List Finding × ScanResult) : List Finding × ScanResult :=
  payment_patterns.foldl (fun st p => (p.2 content).foldl (paymentStep p.1 filepath content) st) st

/-- The file_results dictionary of scan_file. -/
structure FileResults where
  secrets : List Finding
  payment_issues : List Finding
  file_path : String
deriving DecidableEq, Repr

/-- ComplianceScanner.scan_file: scan one file for secrets and payment data,
returning the per-file results and the updated severity tallies. -/
def scan_file (secret_patterns payment_patterns : List (String × MatcherFn))
    (filepath : String) (content : List Char) (results : ScanResult) :
    FileResults × ScanResult :=
  let s := scanSecrets secret_patterns filepath content ([], results)
  let p := scanPayments payment_patterns filepath content ([], s.2)
  ({ secrets := s.1, payment_issues := p.1, file_path := filepath }, p.2)

/-- ComplianceScanner.scan_dependencies: for each package file present, for
each vulnerable package pattern, a single re.search test; a match appends one
medium dependency issue and increments the medium tally once. -/
def scan_dependencies (vulnerable_package_rules : List (String × (List Char → Bool)))
    (package_files : List (String × List Char)) (results : ScanResult) : ScanResult :=
  package_files.foldl (fun results pf =>
    vulnerable_package_rules.foldl (fun results p =>
      if p.2 pf.2 then
        { results with
          dependency_issues := results.dependency_issues ++
            [({ type := "vulnerable_dependency", package := p.1, file := some pf.1,
                severity := "medium",
                message := "Potentially vulnerable package: " ++ p.1 } : DependencyIssue)],
          medium_severity_count := results.medium_severity_count + 1 }
      else results) results) results

/-- ComplianceScanner.run_npm_audit: the parsed vulnerabilities dictionary is
a list of package name and optional severity (absent severity defaults to
unknown); each entry appends one dependency issue and increments exactly one
tally. The input is none when npm produced no output or unparsable output. -/
def run_npm_audit (audit : Option (List (String × Option String))) (results : ScanResult) :
    ScanResult :=
  match audit with
  | none => results
  | some vulns =>
    vulns.foldl (fun results v =>
      let severity := v.2.getD "unknown"
      let results := { results with
        dependency_issues := results.dependency_issues ++
          [({ type := "npm_audit_vulnerability", package := v.1, file := none,
              severity := severity,
              message := "npm audit found " ++ severity ++ " vulnerability in " ++ v.1 } : DependencyIssue)] }
      if severity = "high" ∨ severity = "critical" then
        { results with high_severity_count := results.high_severity_count + 1 }
      else if severity = "moderate" then
        { results with medium_severity_count := results.medium_severity_count + 1 }
      else
        { results with low_severity_count := results.low_severity_count + 1 }) results

/-- One iteration of the per-file loop of scan_project: run scan_file, extend
the accumulated finding lists and increment the scanned file counter. -/
def projectFileStep (secret_patterns payment_patterns : List (String × MatcherFn))
    (results : ScanResult) (file : String × List Char) : ScanResult :=
  let fr := scan_file secret_patterns payment_patterns file.1 file.2 results
  { fr.2 with
    secrets_found := fr.2.secrets_found ++ fr.1.secrets,
    payment_issues := fr.2.payment_issues ++ fr.1.payment_issues,
    scanned_files := fr.2.scanned_files + 1 }

/-- ComplianceScanner.scan_project: scan every file, then the dependency
manifests, then merge the npm audit output. -/
def scan_project (secret_patterns payment_patterns : List (String × MatcherFn))
    (vulnerable_package_rules : List (String × (List Char → Bool)))
    (files : List (String × List Char)) (package_files : List (String × List Char))
    (npm_audit : Option (List (String × Option String))) : ScanResult :=
  let results := files.foldl (projectFileStep secret_patterns payment_patterns) ScanResult.init
  let results := scan_dependencies vulnerable_package_rules package_files results
  run_npm_audit npm_audit results

/-- The exit status of ComplianceScanner.generate_report: sys.exit(1) when
high_severity_count is positive, sys.exit(0) otherwise. -/
def generate_report_exit (results : ScanResult) : Nat :=
  if results.high_severity_count > 0 then 1 else 0

/-- Left-to-right non-overlapping match enumeration, the semantics of
re.finditer for a matcher that reports the match length at the head of a
suffix. The fuel argument is the length of the text. -/
def finditerAux (matchLen : List Char → Option Nat) : Nat → List Char → Nat → List Nat
  | 0, _, _ => []
  | _, [], _ => []
  | fuel + 1, s, i =>
    match matchLen s with
    | some n => i :: finditerAux matchLen fuel (s.drop (n.max 1)) (i + n.max 1)
    | none => finditerAux matchLen fuel (s.drop 1) (i + 1)

def finditer (matchLen : List Char → Option Nat) (s : List Char) : List Nat :=
  finditerAux matchLen s.length s 0

/-- The character class of the aws_access_key rule: a digit or an uppercase
ASCII letter. -/
def isAZ09 (c : Char) : Bool := c.isDigit || ('A' ≤ c && c ≤ 'Z')

/-- Match length at the head of a suffix for the aws_access_key secret rule:
the literal AKIA followed by sixteen characters of the class above. -/
def awsMatchLen : List Char → Option Nat
  | 'A' :: 'K' :: 'I' :: 'A' :: rest =>
    if 16 ≤ rest.length ∧ (rest.take 16).all isAZ09 then some 20 else none
  | _ => none

/-- The aws_access_key entry of the secret pattern catalog. -/
def aws_access_key_rule : String × MatcherFn := ("aws_access_key", finditer awsMatchLen)

/-- The whitespace class of the regex escape backslash-s. -/
def isWs (c : Char) : Bool :=
  c = ' ' || c = '\t' || c = '\n' || c = '\r' || c = '\x0b' || c = '\x0c'

def dropWs : List Char → List Char
  | c :: rest => if isWs c then dropWs rest else c :: rest
  | [] => []

/-- Drop a literal from the head of a text, or fail. -/
def dropLit : List Char → List Char → Option (List Char)
  | [], s => some s
  | _ :: _, [] => none
  | l :: ls, c :: cs => if c = l then dropLit ls cs else none

/-- After a package literal: optional whitespace, a colon, optional
whitespace, an opening double quote. -/
def colonQuoteAt (s : List Char) : Bool :=
  match dropWs s with
  | ':' :: rest =>
    match dropWs rest with
    | '"' :: _ => true
    | _ => false
  | _ => false

/-- The lodash rule matches at the head of a suffix: the quoted lodash
literal, optional whitespace, a colon, optional whitespace, a double quote,
then one character other than the digit four. -/
def lodashAt (s : List Char) : Bool :=
  match dropLit "\"lodash\"".toList s with
  | none => false
  | some rest =>
    match dropWs rest with
    | ':' :: rest2 =>
      match dropWs rest2 with
      | '"' :: c :: _ => c != '4'
      | _ => false
    | _ => false

def pkgColonQuoteAt (lit : List Char) (s : List Char) : Bool :=
  match dropLit lit s with
  | none => false
  | some rest => colonQuoteAt rest

def litAt (lit : List Char) (s : List Char) : Bool :=
  (dropLit lit s).isSome

/-- The semantics of re.search: does the rule match at some position. -/
def searchAnywhere (p : List Char → Bool) : List Char → Bool
  | [] => p []
  | c :: rest => p (c :: rest) || searchAnywhere p rest

/-- The vulnerable_packages catalog of ComplianceScanner, with each regular
expression implemented as a Boolean matcher. -/
def vulnerable_packages : List (String × (List Char → Bool)) :=
  [("lodash", searchAnywhere lodashAt),
   ("moment", searchAnywhere (pkgColonQuoteAt "\"moment\"".toList)),
   ("node-uuid", searchAnywhere (litAt "\"node-uuid\"".toList)),
   ("request", searchAnywhere (pkgColonQuoteAt "\"request\"".toList))]

/-- The summary sub-dictionary of SecurityReportGenerator.report_data. -/
structure Summary where
  total_issues : Nat
  critical_count : Nat
  high_count : Nat
  medium_count : Nat
  low_count : Nat
  info_count : Nat
deriving DecidableEq, Repr

def Summary.init : Summary := ⟨0, 0, 0, 0, 0, 0⟩

/-- A recommendation dictionary of generate_recommendations. -/
structure Recommendation where
  priority : String
  message : String
  action : String
deriving DecidableEq, Repr

/-- A parsed npm-audit artifact: the vulnerabilities key may be absent; each
vulnerability carries a package name and an optional severity string. -/
structure NpmAuditData where
  vulnerabilities : Option (List (String × Option String))
deriving DecidableEq, Repr

/-- SecurityReportGenerator.report_data (and, once serialized, the
security-detailed-report.json consumed by the gate). The dependency_scan
dictionary holds the npm_audit and audit_ci keys; codeql_results and
semgrep_results are never written by any processing step and stay empty, so
they are not modelled. The eslint_security results list and the audit_ci data
are pass-through payloads, modelled only as far as the code reads them. -/
structure ReportData where
  dependency_scan_npm_audit : Option NpmAuditData
  dependency_scan_audit_ci : Option Unit
  eslint_results : Option (List (Option (List (Option Int))))
  compliance_scan : Option ScanResult
  summary : Summary
  recommendations : List Recommendation
deriving DecidableEq, Repr

def ReportData.init : ReportData :=
  { dependency_scan_npm_audit := none, dependency_scan_audit_ci := none,
    eslint_results := none, compliance_scan := none,
    summary := Summary.init, recommendations := [] }

/-- The external artifacts available to one generate_reports run; none stands
for an absent or unloadable (or falsy) artifact file. -/
structure Artifacts where
  npm_audit : Option NpmAuditData
  audit_ci : Option Unit
  eslint : Option (List (Option (List (Option Int))))
  compliance : Option ScanResult
deriving DecidableEq, Repr

/-- SecurityReportGenerator.increment_severity_count: the severity_map
dictionary lookup (with moderate mapping to the medium bucket and every
unrecognized severity, like the info key itself, to the info bucket) followed
by the bucket increment and the total_issues increment. -/
def increment_severity_count (severity : String) (s : Summary) : Summary :=
  let l := severity.toLower
  let s :=
    if l = "critical" then { s with critical_count := s.critical_count + 1 }
    else if l = "high" then { s with high_count := s.high_count + 1 }
    else if l = "medium" ∨ l = "moderate" then { s with medium_count := s.medium_count + 1 }
    else if l = "low" then { s with low_count := s.low_count + 1 }
    else { s with info_count := s.info_count + 1 }
  { s with total_issues := s.total_issues + 1 }

/-- SecurityReportGenerator.process_npm_audit_results. -/
def process_npm_audit_results (artifact : Option NpmAuditData) (rd : ReportData) : ReportData :=
  match artifact with
  | none => rd
  | some data =>
    let rd := { rd with dependency_scan_npm_audit := some data }
    match data.vulnerabilities with
    | none => rd
    | some vulns =>
      vulns.foldl (fun rd v =>
        { rd with summary := increment_severity_count ((v.2.getD "info").toLower) rd.summary }) rd

/-- SecurityReportGenerator.process_audit_ci_results: store the payload. -/
def process_audit_ci_results (artifact : Option Unit) (rd : ReportData) : ReportData :=
  match artifact with
  | none => rd
  | some _ => { rd with dependency_scan_audit_ci := some () }

/-- SecurityReportGenerator.process_eslint_results: an empty list artifact is
falsy in the guard and skipped; severity two counts as high, everything else
(the default severity being one) as medium. -/
def process_eslint_results (artifact : Option (List (Option (List (Option Int)))))
    (rd : ReportData) : ReportData :=
  match artifact with
  | none => rd
  | some data =>
    if data.isEmpty then rd
    else
      let rd := { rd with eslint_results := some data }
      data.foldl (fun rd fileResult =>
        match fileResult with
        | none => rd
        | some messages =>
          messages.foldl (fun rd m =>
            if m.getD 1 = 2 then
              { rd with summary := increment_severity_count "high" rd.summary }
            else
              { rd with summary := increment_severity_count "medium" rd.summary }) rd) rd

/-- SecurityReportGenerator.process_compliance_results: store the scan and add
its tallies directly to the critical, medium and low buckets of the summary,
without touching total_issues. -/
def process_compliance_results (artifact : Option ScanResult) (rd : ReportData) : ReportData :=
  match artifact with
  | none => rd
  | some data =>
    { rd with
      compliance_scan := some data,
      summary := { rd.summary with
        critical_count := rd.summary.critical_count + data.high_severity_count,
        medium_count := rd.summary.medium_count + data.medium_severity_count,
        low_count := rd.summary.low_count + data.low_severity_count } }

/-- SecurityReportGenerator.generate_recommendations, evaluated over the
report state after all processing steps. -/
def generate_recommendations (rd : ReportData) : List Recommendation :=
  let recommendations : List Recommendation := []
  let recommendations :=
    if rd.summary.critical_count > 0 then
      recommendations ++
        [{ priority := "CRITICAL",
           message := "🚨 " ++ toString rd.summary.critical_count ++
                      " critical security issues found. Immediate action required.",
           action := "Review and fix all critical issues before deployment" }]
    else recommendations
  let recommendations :=
    if rd.summary.high_count > 0 then
      recommendations ++
        [{ priority := "HIGH",
           message := "⚠️ " ++ toString rd.summary.high_count ++ " high severity issues found.",
           action := "Address high severity issues in current sprint" }]
    else recommendations
  let recommendations :=
    match rd.compliance_scan with
    | some c =>
      if c.secrets_found.isEmpty then recommendations
      else
        recommendations ++
          [{ priority := "CRITICAL",
             message := "🔑 " ++ toString c.secrets_found.length ++
                        " potential secrets found in code",
             action := "Remove all hardcoded secrets and use environment variables" }]
    | none => recommendations
  let recommendations :=
    match rd.compliance_scan with
    | some c =>
      if c.payment_issues.isEmpty then recommendations
      else
        recommendations ++
          [{ priority := "HIGH",
             message := "💳 " ++ toString c.payment_issues.length ++ " payment data issues found",
             action := "Review payment data handling for PCI compliance" }]
    | none => recommendations
  let recommendations :=
    if rd.dependency_scan_npm_audit.isSome || rd.dependency_scan_audit_ci.isSome then
      recommendations ++
        [{ priority := "MEDIUM",
           message := "📦 Run npm audit fix to automatically resolve dependency vulnerabilities",
           action := "Update vulnerable dependencies to secure versions" }]
    else recommendations
  let recommendations :=
    if rd.summary.total_issues = 0 then
      recommendations ++
        [{ priority := "INFO",
           message := "✅ No security issues detected in this scan",
           action := "Continue following security best practices" }]
    else recommendations
  recommendations

/-- SecurityReportGenerator.generate_reports: process the four artifacts in
order, then synthesize the recommendations. -/
def generate_reports (arts : Artifacts) : ReportData :=
  let rd := ReportData.init
  let rd := process_npm_audit_results arts.npm_audit rd
  let rd := process_audit_ci_results arts.audit_ci rd
  let rd := process_eslint_results arts.eslint rd
  let rd := process_compliance_results arts.compliance rd
  { rd with recommendations := generate_recommendations rd }

/-- A full run of the generator script: it writes the two report files and
returns; the script defines no failure path and never calls sys.exit, so its
process exit status is always 0. -/
def generate_reports_run (arts : Artifacts) : ReportData × Nat :=
  (generate_reports arts, 0)

/-- The gate_config dictionary of SecurityGate. -/
structure GateConfig where
  max_critical_issues : Nat
  max_high_issues : Nat
  max_secrets : Nat
  max_payment_issues : Nat
  warn_medium_issues : Nat
  warn_dependency_issues : Nat
  required_scans : List String
deriving DecidableEq, Repr

def gate_config : GateConfig :=
  { max_critical_issues := 0, max_high_issues := 0, max_secrets := 0,
    max_payment_issues := 0, warn_medium_issues := 5, warn_dependency_issues := 10,
    required_scans := ["compliance_scan", "dependency_scan"] }

/-- The mutable lists of SecurityGate: violations, warnings, passed_checks. -/
structure GateState where
  violations : List String
  warnings : List String
  passed_checks : List String
deriving DecidableEq, Repr

def GateState.init : GateState := ⟨[], [], []⟩

/-- SecurityGate.check_critical_issues. -/
def check_critical_issues (r : ReportData) (st : GateState) : GateState :=
  let critical_count := r.summary.critical_count
  let high_count := r.summary.high_count
  let st :=
    if critical_count > gate_config.max_critical_issues then
      { st with violations := st.violations ++
          ["❌ Critical issues found: " ++ toString critical_count ++
           " (max allowed: " ++ toString gate_config.max_critical_issues ++ ")"] }
    else
      { st with passed_checks := st.passed_checks ++
          ["✅ Critical issues: " ++ toString critical_count] }
  if high_count > gate_config.max_high_issues then
    { st with violations := st.violations ++
        ["❌ High severity issues found: " ++ toString high_count ++
         " (max allowed: " ++ toString gate_config.max_high_issues ++ ")"] }
  else
    { st with passed_checks := st.passed_checks ++
        ["✅ High severity issues: " ++ toString high_count] }

/-- SecurityGate.check_compliance_issues: when the compliance section is the
empty dictionary a single violation is recorded and the secrets and payment
checks are skipped. -/
def check_compliance_issues (r : ReportData) (st : GateState) : GateState :=
  match r.compliance_scan with
  | none => { st with violations := st.violations ++ ["❌ Compliance scan results not found"] }
  | some compliance =>
    let secrets_count := compliance.secrets_found.length
    let st :=
      if secrets_count > gate_config.max_secrets then
        { st with violations := st.violations ++
            ["❌ Secrets found in code: " ++ toString secrets_count ++
             " (max allowed: " ++ toString gate_config.max_secrets ++ ")"] }
      else
        { st with passed_checks := st.passed_checks ++
            ["✅ Secrets in code: " ++ toString secrets_count] }
    let payment_issues := compliance.payment_issues.length
    if payment_issues > gate_config.max_payment_issues then
      { st with violations := st.violations ++
          ["❌ Payment data issues: " ++ toString payment_issues ++
           " (max allowed: " ++ toString gate_config.max_payment_issues ++ ")"] }
    else
      { st with passed_checks := st.passed_checks ++
          ["✅ Payment data issues: " ++ toString payment_issues] }

/-- SecurityGate.check_dependency_issues: a missing dependency_scan section
only warns; otherwise the npm audit vulnerability count is compared against
the warning threshold and never blocks. -/
def check_dependency_issues (r : ReportData) (st : GateState) : GateState :=
  if !(r.dependency_scan_npm_audit.isSome || r.dependency_scan_audit_ci.isSome) then
    { st with warnings := st.warnings ++ ["⚠️ Dependency scan results not found"] }
  else
    let total_vulnerabilities :=
      match r.dependency_scan_npm_audit with
      | some a => match a.vulnerabilities with | some v => v.length | none => 0
      | none => 0
    if total_vulnerabilities > gate_config.warn_dependency_issues then
      { st with warnings := st.warnings ++
          ["⚠️ High number of dependency vulnerabilities: " ++ toString total_vulnerabilities ++
           " (warning threshold: " ++ toString gate_config.warn_dependency_issues ++ ")"] }
    else
      { st with passed_checks := st.passed_checks ++
          ["✅ Dependency vulnerabilities: " ++ toString total_vulnerabilities] }

/-- Presence and truthiness of a section of the generated report, as tested by
check_required_scans. Only the two names in the fixed required_scans list are
ever consulted; any other name would be a missing key. -/
def reportSection (r : ReportData) (name : String) : Bool :=
  if name = "compliance_scan" then r.compliance_scan.isSome
  else if name = "dependency_scan" then
    r.dependency_scan_npm_audit.isSome || r.dependency_scan_audit_ci.isSome
  else false

/-- SecurityGate.check_required_scans. -/
def check_required_scans (r : ReportData) (st : GateState) : GateState :=
  gate_config.required_scans.foldl (fun st name =>
    if reportSection r name then
      { st with passed_checks := st.passed_checks ++ ["✅ Required scan completed: " ++ name] }
    else
      { st with violations := st.violations ++ ["❌ Required scan missing: " ++ name] }) st

/-- SecurityGate.check_medium_issues: warning only. -/
def check_medium_issues (r : ReportData) (st : GateState) : GateState :=
  let medium_count := r.summary.medium_count
  if medium_count > gate_config.warn_medium_issues then
    { st with warnings := st.warnings ++
        ["⚠️ High number of medium issues: " ++ toString medium_count ++
         " (warning threshold: " ++ toString gate_config.warn_medium_issues ++ ")"] }
  else
    { st with passed_checks := st.passed_checks ++
        ["✅ Medium severity issues: " ++ toString medium_count] }

/-- The five checks of run_security_gate, in source order. -/
def gateChecks (r : ReportData) : GateState :=
  check_medium_issues r
    (check_required_scans r
      (check_dependency_issues r
        (check_compliance_issues r
          (check_critical_issues r GateState.init))))

/-- SecurityGate.run_security_gate: a missing (or unloadable) report records a
violation and exits 1 before any check runs; otherwise all five checks run and
the exit status is 0 exactly when the violations list stayed empty. -/
def run_security_gate (report : Option ReportData) : GateState × Nat :=
  match report with
  | none =>
    ({ GateState.init with
       violations := ["❌ Security report not found: security-detailed-report.json"] }, 1)
  | some r =>
    let st := gateChecks r
    (st, if st.violations.isEmpty then 0 else 1)

/-- Structural form of the secret findings produced by scan_file: all matches
of every secret rule, in catalog order. -/
def secretsOf (secret_patterns : List (String × MatcherFn)) (filepath : String)
    (content : List Char) : List Finding :=
  secret_patterns.flatMap (fun p => (p.2 content).map (secretFinding p.1 filepath content))

/-- Structural form of the payment findings produced by scan_file. -/
def paymentsOf (payment_patterns : List (String × MatcherFn)) (filepath : String)
    (content : List Char) : List Finding :=
  payment_patterns.flatMap (fun p => (p.2 content).map (paymentFinding p.1 filepath content))

/-- A text planting an aws_access_key secret after three newline characters. -/
def plantedSecretText : List Char := "\n\n\nAKIAABCDEFGHIJKLMNOP".toList

/-- A scan of a single source file holding one secret: one high severity
secret finding and nothing else. -/
def oneSecretScan : ScanResult :=
  scan_project [aws_access_key_rule] [] vulnerable_packages
    [("src/config.ts", plantedSecretText)] [] none

/-- The aggregated report for a run whose only artifact is the compliance scan
with the single secret. -/
def oneSecretReport : ReportData :=
  generate_reports { npm_audit := none, audit_ci := none, eslint := none,
                     compliance := some oneSecretScan }

/-- A manifest declaring a vulnerable lodash version. -/
def lodashManifest : List Char := "\"lodash\": \"2.4.1\"".toList

/-- The same declaration twice in one manifest. -/
def lodashManifestTwice : List Char :=
  "\"lodash\": \"2.4.1\", \"lodash\": \"2.4.1\"".toList

/-- A scan of a project whose only issue is the vulnerable lodash manifest
entry: one medium severity dependency finding. -/
def lodashScan : ScanResult :=
  scan_project [aws_access_key_rule] [] vulnerable_packages []
    [("package.json", lodashManifest)] none

/-- The aggregated report for the lodash-only scan, with an npm audit artifact
reporting zero vulnerabilities. -/
def lodashReport : ReportData :=
  generate_reports { npm_audit := some { vulnerabilities := some [] }, audit_ci := none,
                     eslint := none, compliance := some lodashScan }

/-- The tally invariant of a ScanResult: the sum of the three severity
tallies equals the total number of findings across the three sequences. -/
def scanInv (r : ScanResult) : Prop :=
  r.high_severity_count + r.medium_severity_count + r.low_severity_count =
    r.secrets_found.length + r.payment_issues.length + r.dependency_issues.length

/-- The artifact set of a run where no artifact file is present at all. -/
def noArtifacts : Artifacts :=
  { npm_audit := none, audit_ci := none, eslint := none, compliance := none }

theorem secretStep_fold (name filepath : String) (content : List Char) :
    ∀ (starts : List Nat) (acc : List Finding) (res : ScanResult),
      starts.foldl (secretStep name filepath content) (acc, res) =
        (acc ++ starts.map (secretFinding name filepath content),
         { res with high_severity_count := res.high_severity_count + starts.length }) := by
  intro starts
  induction starts with
  | nil => intro acc res; simp
  | cons s rest ih =>
    intro acc res
    simp only [List.foldl_cons, secretStep, ih, List.map_cons, List.length_cons]
    simp [List.append_assoc, Nat.add_comm, Nat.add_assoc, Nat.add_left_comm]

theorem paymentStep_fold (name filepath : String) (content : List Char) :
    ∀ (starts : List Nat) (acc : List Finding) (res : ScanResult),
      starts.foldl (paymentStep name filepath content) (acc, res) =
        (acc ++ starts.map (paymentFinding name filepath content),
         if paymentSeverity name = "high" then
           { res with high_severity_count := res.high_severity_count + starts.length }
         else
           { res with medium_severity_count := res.medium_severity_count + starts.length }) := by
  intro starts
  induction starts with
  | nil => intro acc res; split <;> simp
  | cons s rest ih =>
    intro acc res
    simp only [List.foldl_cons, paymentStep, ih, List.map_cons, List.length_cons]
    have hsev : (paymentFinding name filepath content s).severity = paymentSeverity name := rfl
    rw [hsev]
    by_cases h : paymentSeverity name = "high" <;>
      simp [h, List.append_assoc, Nat.add_comm, Nat.add_assoc, Nat.add_left_comm]

theorem scanSecrets_eq (secret_patterns : List (String × MatcherFn)) (filepath : String)
    (content : List Char) :
    ∀ (acc : List Finding) (res : ScanResult),
      scanSecrets secret_patterns filepath content (acc, res) =
        (acc ++ secretsOf secret_patterns filepath content,
         { res with high_severity_count :=
             res.high_severity_count + (secretsOf secret_patterns filepath content).length }) := by
  induction secret_patterns with
  | nil => intro acc res; simp [scanSecrets, secretsOf]
  | cons p ps ih =>
    intro acc res
    have h1 : scanSecrets (p :: ps) filepath content (acc, res) =
        scanSecrets ps filepath content
          ((p.2 content).foldl (secretStep p.1 filepath content) (acc, res)) := rfl
    rw [h1, secretStep_fold, ih]
    simp [secretsOf, List.append_assoc, Nat.add_assoc]

theorem scanPayments_eq (payment_patterns : List (String × MatcherFn)) (filepath : String)
    (content : List Char) :
    ∀ (acc : List Finding) (res : ScanResult),
      scanPayments payment_patterns filepath content (acc, res) =
        (acc ++ paymentsOf payment_patterns filepath content,
         { res with
           high_severity_count := res.high_severity_count +
             (paymentsOf payment_patterns filepath content).countP (fun x => x.severity == "high"),
           medium_severity_count := res.medium_severity_count +
             (paymentsOf payment_patterns filepath content).countP
               (fun x => !(x.severity == "high")) }) := by
  induction payment_patterns with
  | nil => intro acc res; simp [scanPayments, paymentsOf]
  | cons p ps ih =>
    intro acc res
    have h1 : scanPayments (p :: ps) filepath content (acc, res) =
        scanPayments ps filepath content
          ((p.2 content).foldl (paymentStep p.1 filepath content) (acc, res)) := rfl
    rw [h1, paymentStep_fold]
    have hsev : ∀ s, (paymentFinding p.1 filepath content s).severity = paymentSeverity p.1 :=
      fun s => rfl
    by_cases h : paymentSeverity p.1 = "high"
    · simp only [if_pos h]
      rw [ih]
      simp [paymentsOf, List.countP_append, List.countP_map, Function.comp, hsev, h,
        List.append_assoc, Nat.add_assoc, List.countP_true, List.countP_false]
      have hc : ((fun (x : Finding) => x.severity == "high") ∘ paymentFinding p.1 filepath content)
          = fun _ => true := by
        funext s
        simp [Function.comp, paymentFinding, h]
      rw [hc, List.countP_true]
    · simp only [if_neg h]
      rw [ih]
      simp [paymentsOf, List.countP_append, List.countP_map, Function.comp, hsev, h,
        List.append_assoc, Nat.add_assoc, List.countP_true, List.countP_false]
      have hc : ((fun (x : Finding) => !x.severity == "high") ∘ paymentFinding p.1 filepath content)
          = fun _ => true := by
        funext s
        simp [Function.comp, paymentFinding, h]
      rw [hc, List.countP_true]

theorem scan_file_eq (secret_patterns payment_patterns : List (String × MatcherFn))
    (filepath : String) (content : List Char) (res : ScanResult) :
    scan_file secret_patterns payment_patterns filepath content res =
      ({ secrets := secretsOf secret_patterns filepath content,
         payment_issues := paymentsOf payment_patterns filepath content,
         file_path := filepath },
       { res with
         high_severity_count := res.high_severity_count +
           (secretsOf secret_patterns filepath content).length +
           (paymentsOf payment_patterns filepath content).countP (fun x => x.severity == "high"),
         medium_severity_count := res.medium_severity_count +
           (paymentsOf payment_patterns filepath content).countP
             (fun x => !(x.severity == "high")) }) := by
  simp [scan_file, scanSecrets_eq, scanPayments_eq]

theorem countP_high_split (l : List Finding) :
    l.length = l.countP (fun x => x.severity == "high") +
      l.countP (fun x => !(x.severity == "high")) := by
  have h := List.length_eq_countP_add_countP (fun (x : Finding) => x.severity == "high") l
  simpa using h

theorem scanInv_projectFileStep (sp pp : List (String × MatcherFn)) (res : ScanResult)
    (file : String × List Char) (h : scanInv res) : scanInv (projectFileStep sp pp res file) := by
  have hs := countP_high_split (paymentsOf pp file.1 file.2)
  simp [scanInv, projectFileStep, scan_file_eq] at *
  omega

theorem scanInv_files_fold (sp pp : List (String × MatcherFn)) :
    ∀ (files : List (String × List Char)) (res : ScanResult), scanInv res →
      scanInv (files.foldl (projectFileStep sp pp) res) := by
  intro files
  induction files with
  | nil => intro res h; simpa using h
  | cons f fs ih =>
    intro res h
    simpa using ih _ (scanInv_projectFileStep sp pp res f h)

theorem scanInv_dep_single (pf : String × List Char) :
    ∀ (rules : List (String × (List Char → Bool))) (res : ScanResult), scanInv res →
      scanInv (scan_dependencies rules [pf] res) := by
  intro rules
  induction rules with
  | nil => intro res h; simpa [scan_dependencies] using h
  | cons r rs ih =>
    intro res h
    have hstep : scanInv (if r.2 pf.2 then
        { res with
          dependency_issues := res.dependency_issues ++
            [({ type := "vulnerable_dependency", package := r.1, file := some pf.1,
                severity := "medium",
                message := "Potentially vulnerable package: " ++ r.1 } : DependencyIssue)],
          medium_severity_count := res.medium_severity_count + 1 }
      else res) := by
      by_cases hc : r.2 pf.2 <;> simp [hc, scanInv] at * <;> omega
    exact ih _ hstep

theorem scanInv_scan_dependencies (rules : List (String × (List Char → Bool))) :
    ∀ (pkgs : List (String × List Char)) (res : ScanResult), scanInv res →
      scanInv (scan_dependencies rules pkgs res) := by
  intro pkgs
  induction pkgs with
  | nil => intro res h; simpa [scan_dependencies] using h
  | cons pf pkgs ih =>
    intro res h
    exact ih _ (scanInv_dep_single pf rules res h)

theorem scanInv_run_npm_audit :
    ∀ (audit : Option (List (String × Option String))) (res : ScanResult), scanInv res →
      scanInv (run_npm_audit audit res) := by
  intro audit
  match audit with
  | none => intro res h; simpa [run_npm_audit] using h
  | some vulns =>
    induction vulns with
    | nil => intro res h; simpa [run_npm_audit] using h
    | cons v vs ih =>
      intro res h
      apply ih
      by_cases h1 : v.2.getD "unknown" = "high" ∨ v.2.getD "unknown" = "critical"
      · simp [scanInv, h1] at h ⊢; omega
      · by_cases h2 : v.2.getD "unknown" = "moderate"
        · simp [scanInv, h1, h2] at h ⊢; omega
        · simp [scanInv, h1, h2] at h ⊢; omega

theorem paymentsOf_severity (payment_patterns : List (String × MatcherFn)) (filepath : String)
    (content : List Char) :
    ∀ x ∈ paymentsOf payment_patterns filepath content,
      x.severity = paymentSeverity x.type := by
  intro x hx
  simp only [paymentsOf, List.mem_flatMap, List.mem_map] at hx
  obtain ⟨p, hp, s, hs, rfl⟩ := hx
  rfl

theorem scan_project_tally_totals
    (secret_patterns payment_patterns : List (String × MatcherFn))
    (vulnerable_package_rules : List (String × (List Char → Bool)))
    (files package_files : List (String × List Char))
    (npm_audit : Option (List (String × Option String))) :
    scanInv (scan_project secret_patterns payment_patterns vulnerable_package_rules
      files package_files npm_audit) := by
  have h0 : scanInv ScanResult.init := by simp [scanInv, ScanResult.init]
  have h1 := scanInv_files_fold secret_patterns payment_patterns files _ h0
  have h2 := scanInv_scan_dependencies vulnerable_package_rules package_files _ h1
  have h3 := scanInv_run_npm_audit npm_audit _ h2
  simpa [scan_project] using h3

theorem check_critical_shift (r : ReportData) (st : GateState) :
    check_critical_issues r st =
      { violations := st.violations ++ (check_critical_issues r GateState.init).violations,
        warnings := st.warnings ++ (check_critical_issues r GateState.init).warnings,
        passed_checks := st.passed_checks ++
          (check_critical_issues r GateState.init).passed_checks } := by
  cases st
  simp only [check_critical_issues, GateState.init]
  split_ifs <;> simp

theorem check_compliance_shift (r : ReportData) (st : GateState) :
    check_compliance_issues r st =
      { violations := st.violations ++ (check_compliance_issues r GateState.init).violations,
        warnings := st.warnings ++ (check_compliance_issues r GateState.init).warnings,
        passed_checks := st.passed_checks ++
          (check_compliance_issues r GateState.init).passed_checks } := by
  cases st
  cases hc : r.compliance_scan
  · simp [check_compliance_issues, GateState.init, hc]
  · simp only [check_compliance_issues, GateState.init, hc]
    split_ifs <;> simp

theorem check_dependency_shift (r : ReportData) (st : GateState) :
    check_dependency_issues r st =
      { violations := st.violations ++ (check_dependency_issues r GateState.init).violations,
        warnings := st.warnings ++ (check_dependency_issues r GateState.init).warnings,
        passed_checks := st.passed_checks ++
          (check_dependency_issues r GateState.init).passed_checks } := by
  cases st
  simp only [check_dependency_issues, GateState.init]
  split_ifs <;> simp

theorem check_required_shift (r : ReportData) (st : GateState) :
    check_required_scans r st =
      { violations := st.violations ++ (check_required_scans r GateState.init).violations,
        warnings := st.warnings ++ (check_required_scans r GateState.init).warnings,
        passed_checks := st.passed_checks ++
          (check_required_scans r GateState.init).passed_checks } := by
  cases st
  simp only [check_required_scans, gate_config, GateState.init, List.foldl_cons, List.foldl_nil]
  split_ifs <;> simp

theorem check_medium_shift (r : ReportData) (st : GateState) :
    check_medium_issues r st =
      { violations := st.violations ++ (check_medium_issues r GateState.init).violations,
        warnings := st.warnings ++ (check_medium_issues r GateState.init).warnings,
        passed_checks := st.passed_checks ++
          (check_medium_issues r GateState.init).passed_checks } := by
  cases st
  simp only [check_medium_issues, GateState.init]
  split_ifs <;> simp

theorem gateChecks_decomposition (r : ReportData) :
    gateChecks r =
      { violations :=
          (check_critical_issues r GateState.init).violations ++
          (check_compliance_issues r GateState.init).violations ++
          (check_dependency_issues r GateState.init).violations ++
          (check_required_scans r GateState.init).violations ++
          (check_medium_issues r GateState.init).violations,
        warnings :=
          (check_critical_issues r GateState.init).warnings ++
          (check_compliance_issues r GateState.init).warnings ++
          (check_dependency_issues r GateState.init).warnings ++
          (check_required_scans r GateState.init).warnings ++
          (check_medium_issues r GateState.init).warnings,
        passed_checks :=
          (check_critical_issues r GateState.init).passed_checks ++
          (check_compliance_issues r GateState.init).passed_checks ++
          (check_dependency_issues r GateState.init).passed_checks ++
          (check_required_scans r GateState.init).passed_checks ++
          (check_medium_issues r GateState.init).passed_checks } := by
  unfold gateChecks
  rw [check_medium_shift, check_required_shift, check_dependency_shift]
  rw [check_compliance_shift]

/-- C3: for every loadable security report the gate runs all five check
methods, each contributing its entries to the verdict independently of the
others (no short-circuiting), and the process exits 0 exactly when the
violations list is empty after all checks ran; warnings never enter the exit
decision. -/
theorem gate_runs_all_checks_pass_iff_no_violations (r : ReportData) :
    ((run_security_gate (some r)).2 = 0 ↔ (run_security_gate (some r)).1.violations = []) ∧
    (run_security_gate (some r)).1.violations =
      (check_critical_issues r GateState.init).violations ++
      (check_compliance_issues r GateState.init).violations ++
      (check_dependency_issues r GateState.init).violations ++
      (check_required_scans r GateState.init).violations ++
      (check_medium_issues r GateState.init).violations ∧
    (run_security_gate (some r)).1.warnings =
      (check_critical_issues r GateState.init).warnings ++
      (check_compliance_issues r GateState.init).warnings ++
      (check_dependency_issues r GateState.init).warnings ++
      (check_required_scans r GateState.init).warnings ++
      (check_medium_issues r GateState.init).warnings ∧
    (run_security_gate (some r)).1.passed_checks =
      (check_critical_issues r GateState.init).passed_checks ++
      (check_compliance_issues r GateState.init).passed_checks ++
      (check_dependency_issues r GateState.init).passed_checks ++
      (check_required_scans r GateState.init).passed_checks ++
      (check_medium_issues r GateState.init).passed_checks := by
  have hd := gateChecks_decomposition r
  have h1 : (run_security_gate (some r)).1 = gateChecks r := rfl
  have h2 : (run_security_gate (some r)).2 =
      if (gateChecks r).violations.isEmpty then 0 else 1 := rfl
  refine ⟨?_, ?_, ?_, ?_⟩
  · rw [h2, h1]
    by_cases hv : (gateChecks r).violations = []
    · simp [hv]
    · simp [List.isEmpty_iff, hv]
  · rw [h1, hd]
  · rw [h1, hd]
  · rw [h1, hd]

/-- C5: for every ScanResult produced by a complete scan pass, the sum of the
high, medium and low severity tallies equals the total number of findings in
the secrets, payment and dependency sequences. -/
theorem scan_result_tallies_match_findings
    (secret_patterns payment_patterns : List (String × MatcherFn))
    (vulnerable_package_rules : List (String × (List Char → Bool)))
    (files package_files : List (String × List Char))
    (npm_audit : Option (List (String × Option String))) :
    (scan_project secret_patterns payment_patterns vulnerable_package_rules
        files package_files npm_audit).high_severity_count +
      (scan_project secret_patterns payment_patterns vulnerable_package_rules
        files package_files npm_audit).medium_severity_count +
      (scan_project secret_patterns payment_patterns vulnerable_package_rules
        files package_files npm_audit).low_severity_count =
    (scan_project secret_patterns payment_patterns vulnerable_package_rules
        files package_files npm_audit).secrets_found.length +
      (scan_project secret_patterns payment_patterns vulnerable_package_rules
        files package_files npm_audit).payment_issues.length +
      (scan_project secret_patterns payment_patterns vulnerable_package_rules
        files package_files npm_audit).dependency_issues.length := by
  simpa [scanInv] using
    scan_project_tally_totals secret_patterns payment_patterns vulnerable_package_rules
      files package_files npm_audit

/-- C6: every finding produced by scan_file carries the line number equal to
one plus the number of newline characters strictly before the match start
offset; concretely, a secret planted after three newlines is reported on
line 4. -/
theorem finding_line_numbers (secret_patterns payment_patterns : List (String × MatcherFn))
    (filepath : String) (content : List Char) (res : ScanResult) :
    (scan_file secret_patterns payment_patterns filepath content res).1.secrets =
      secretsOf secret_patterns filepath content ∧
    (scan_file secret_patterns payment_patterns filepath content res).1.payment_issues =
      paymentsOf payment_patterns filepath content ∧
    (∀ name start, (secretFinding name filepath content start).line =
      ((content.take start).filter (fun ch => ch == '\n')).length + 1) ∧
    (∀ name start, (paymentFinding name filepath content start).line =
      ((content.take start).filter (fun ch => ch == '\n')).length + 1) ∧
    (scan_file [aws_access_key_rule] [] "src/config.ts" plantedSecretText
        ScanResult.init).1.secrets =
      [{ type := "aws_access_key", file := "src/config.ts", line := 4,
         severity := "high", message := "Potential aws_access_key found" }] := by
  refine ⟨by simp [scan_file_eq], by simp [scan_file_eq], ?_, ?_, ?_⟩
  · intro name start
    simp [secretFinding, matchLine, List.count, List.countP_eq_length_filter]
  · intro name start
    simp [paymentFinding, matchLine, List.count, List.countP_eq_length_filter]
  · decide

/-- C7: every payment finding produced by scan_file has severity high exactly
when its rule is credit_card or cvv and medium otherwise, and the high and
medium tallies are incremented by exactly the matching finding counts. -/
theorem payment_severity_rule (secret_patterns payment_patterns : List (String × MatcherFn))
    (filepath : String) (content : List Char) (res : ScanResult) :
    ((scan_file secret_patterns payment_patterns filepath content res).1.payment_issues.all
        (fun x => x.severity ==
          (if x.type == "credit_card" || x.type == "cvv" then "high" else "medium"))) = true ∧
    (scan_file secret_patterns payment_patterns filepath content res).2.high_severity_count =
      res.high_severity_count + (secretsOf secret_patterns filepath content).length +
        (paymentsOf payment_patterns filepath content).countP
          (fun x => x.severity == "high") ∧
    (scan_file secret_patterns payment_patterns filepath content res).2.medium_severity_count =
      res.medium_severity_count +
        (paymentsOf payment_patterns filepath content).countP
          (fun x => !(x.severity == "high")) := by
  refine ⟨?_, by simp [scan_file_eq], by simp [scan_file_eq]⟩
  rw [List.all_eq_true]
  intro x hx
  have h1 : (scan_file secret_patterns payment_patterns filepath content res).1.payment_issues =
      paymentsOf payment_patterns filepath content := by simp [scan_file_eq]
  rw [h1] at hx
  have h2 := paymentsOf_severity payment_patterns filepath content x hx
  rw [h2]
  by_cases hc : x.type = "credit_card" ∨ x.type = "cvv"
  · rcases hc with h | h <;> simp [paymentSeverity, h]
  · push_neg at hc
    simp [paymentSeverity, hc.1, hc.2]

theorem foldl_proj_preserved {β γ δ : Type _} (proj : β → δ) (f : β → γ → β)
    (h : ∀ b v, proj (f b v) = proj b) :
    ∀ (l : List γ) (b : β), proj (l.foldl f b) = proj b := by
  intro l
  induction l with
  | nil => intro b; rfl
  | cons x xs ih => intro b; rw [List.foldl_cons, ih, h]

theorem process_npm_compliance (a : Option NpmAuditData) (rd : ReportData) :
    (process_npm_audit_results a rd).compliance_scan = rd.compliance_scan := by
  match a with
  | none => rfl
  | some data =>
    match h : data.vulnerabilities with
    | none => simp [process_npm_audit_results, h]
    | some vulns =>
      simp only [process_npm_audit_results, h]
      refine foldl_proj_preserved (fun x : ReportData => x.compliance_scan) _ ?_ vulns _
      intro b v
      rfl

theorem process_audit_ci_compliance (a : Option Unit) (rd : ReportData) :
    (process_audit_ci_results a rd).compliance_scan = rd.compliance_scan := by
  match a with
  | none => rfl
  | some _ => rfl

theorem process_eslint_compliance (a : Option (List (Option (List (Option Int)))))
    (rd : ReportData) :
    (process_eslint_results a rd).compliance_scan = rd.compliance_scan := by
  match a with
  | none => rfl
  | some data =>
    cases hd : data.isEmpty
    · simp only [process_eslint_results, hd, Bool.false_eq_true, if_false]
      refine foldl_proj_preserved (fun x : ReportData => x.compliance_scan) _ ?_ data _
      intro b v
      cases v with
      | none => rfl
      | some msgs =>
        refine foldl_proj_preserved (fun x : ReportData => x.compliance_scan) _ ?_ msgs b
        intro b m
        dsimp only
        split <;> rfl
    · simp [process_eslint_results, hd]

theorem generate_reports_compliance (arts : Artifacts) :
    (generate_reports arts).compliance_scan = arts.compliance := by
  show (process_compliance_results arts.compliance
    (process_eslint_results arts.eslint
      (process_audit_ci_results arts.audit_ci
        (process_npm_audit_results arts.npm_audit ReportData.init)))).compliance_scan =
    arts.compliance
  cases h : arts.compliance with
  | none =>
    simp only [process_compliance_results]
    rw [process_eslint_compliance, process_audit_ci_compliance, process_npm_compliance]
    rfl
  | some d => rfl

theorem gate_exit_one_of_compliance_none (r : ReportData) (h : r.compliance_scan = none) :
    (run_security_gate (some r)).2 = 1 := by
  have hd := gateChecks_decomposition r
  have hmem : "❌ Compliance scan results not found" ∈ (gateChecks r).violations := by
    rw [hd]
    simp [check_compliance_issues, h, GateState.init]
  have hne : (gateChecks r).violations ≠ [] := List.ne_nil_of_mem hmem
  show (if (gateChecks r).violations.isEmpty then 0 else 1) = 1
  simp [List.isEmpty_iff, hne]

/-- C1: evaluated at a compliance artifact carrying one high severity finding
(one detected secret) and no external artifacts, the aggregated summary has
bucket sum 1 but total_issues 0: process_compliance_results adds the tallies
to the buckets without updating the total, so the total does not equal the sum
of the five severity buckets. -/
theorem summary_total_diverges_from_bucket_sum :
    oneSecretScan.high_severity_count = 1 ∧
    oneSecretReport.summary.total_issues = 0 ∧
    oneSecretReport.summary.critical_count + oneSecretReport.summary.high_count +
      oneSecretReport.summary.medium_count + oneSecretReport.summary.low_count +
      oneSecretReport.summary.info_count = 1 ∧
    oneSecretReport.summary.total_issues ≠
      oneSecretReport.summary.critical_count + oneSecretReport.summary.high_count +
      oneSecretReport.summary.medium_count + oneSecretReport.summary.low_count +
      oneSecretReport.summary.info_count := by
  refine ⟨by decide, by decide, by decide, by decide⟩

/-- C2 counterexample: when the compliance ScanResult artifact is absent the
aggregator does not exit non-zero; it completes with exit status 0. -/
theorem aggregator_exit_zero_without_compliance :
    (generate_reports_run noArtifacts).2 = 0 := rfl

/-- C2 amended: aggregation never fails on any absent artifact, the compliance
ScanResult included: the aggregator always exits 0 and a missing compliance
artifact only leaves the compliance section empty; the failure surfaces later
in the gate, which records violations and exits non-zero. -/
theorem aggregation_never_fails (arts : Artifacts) (h : arts.compliance = none) :
    (generate_reports_run arts).2 = 0 ∧
    (generate_reports arts).compliance_scan = none ∧
    (run_security_gate (some (generate_reports arts))).2 = 1 := by
  have hc : (generate_reports arts).compliance_scan = none := by
    rw [generate_reports_compliance, h]
  exact ⟨rfl, hc, gate_exit_one_of_compliance_none _ hc⟩

theorem aggregation_never_fails_witness :
    (generate_reports_run noArtifacts).2 = 0 ∧
    (generate_reports noArtifacts).compliance_scan = none ∧
    (run_security_gate (some (generate_reports noArtifacts))).2 = 1 :=
  aggregation_never_fails noArtifacts rfl

/-- C4 counterexample: for the report aggregated from a compliance scan with
one secret, the INFO no-issues recommendation is emitted together with two
CRITICAL recommendations while the critical bucket is nonempty, refuting both
the all-buckets-empty condition and the mutual exclusivity. -/
theorem info_recommendation_not_exclusive :
    oneSecretReport.recommendations.map (fun x => x.priority) =
      ["CRITICAL", "CRITICAL", "INFO"] ∧
    oneSecretReport.summary.critical_count = 1 := by
  refine ⟨by decide, by decide⟩

/-- C4 amended: the INFO no-issues recommendation is emitted exactly when the
summary total_issues counter is zero; because the compliance tallies bypass
that counter and the MEDIUM dependency recommendation depends only on artifact
presence, this is neither equivalent to all buckets being empty nor exclusive
of the other recommendations. -/
theorem info_recommendation_iff_total_zero (rd : ReportData) :
    ((generate_recommendations rd).any (fun x => x.priority == "INFO")) =
      (rd.summary.total_issues == 0) := by
  cases hcs : rd.compliance_scan <;>
    simp only [generate_recommendations, hcs] <;>
    split_ifs <;>
    simp_all

/-- C8: the manifest declaring lodash 2.4.1 yields exactly one medium severity
dependency finding (also when the declaration occurs twice, one finding per
pattern per file), and the gate run over the aggregated report, with its
warning threshold of 10 dependency vulnerabilities, records a passed check for
dependency vulnerabilities and no warning at all. -/
theorem lodash_single_finding_gate_passes :
    lodashScan.dependency_issues =
      [{ type := "vulnerable_dependency", package := "lodash", file := some "package.json",
         severity := "medium", message := "Potentially vulnerable package: lodash" }] ∧
    (scan_project [aws_access_key_rule] [] vulnerable_packages []
        [("package.json", lodashManifestTwice)] none).dependency_issues.length = 1 ∧
    gate_config.warn_dependency_issues = 10 ∧
    "✅ Dependency vulnerabilities: 0" ∈ (run_security_gate (some lodashReport)).1.passed_checks ∧
    (run_security_gate (some lodashReport)).1.warnings = [] := by
  refine ⟨by decide, by decide, by decide, by decide, by decide⟩

/-- C9: the gate thresholds are the fixed built-in constants, the required
scans list is fixed, and the verdict is a function of the loaded report alone,
so two runs over identical report contents yield identical verdicts. -/
theorem gate_policy_fixed_and_deterministic :
    gate_config.max_critical_issues = 0 ∧ gate_config.max_high_issues = 0 ∧
    gate_config.max_secrets = 0 ∧ gate_config.max_payment_issues = 0 ∧
    gate_config.warn_medium_issues = 5 ∧ gate_config.warn_dependency_issues = 10 ∧
    gate_config.required_scans = ["compliance_scan", "dependency_scan"] ∧
    ∀ r1 r2 : Option ReportData, r1 = r2 → run_security_gate r1 = run_security_gate r2 := by
  refine ⟨rfl, rfl, rfl, rfl, rfl, rfl, rfl, ?_⟩
  intro r1 r2 h
  rw [h]

theorem gate_policy_fixed_and_deterministic_witness :
    run_security_gate (some lodashReport) = run_security_gate (some lodashReport) :=
  gate_policy_fixed_and_deterministic.2.2.2.2.2.2.2 (some lodashReport) (some lodashReport) rfl

/-- C10: the compliance report step exits 1 exactly when the high severity
tally is positive; the lodash-only scan, whose single finding is medium
severity, exits 0 at this stage. -/
theorem compliance_report_exit_iff_high (r : ScanResult) :
    (generate_report_exit r = 1 ↔ 0 < r.high_severity_count) ∧
    generate_report_exit lodashScan = 0 ∧
    lodashScan.high_severity_count = 0 ∧ lodashScan.medium_severity_count = 1 := by
  refine ⟨?_, by decide, by decide, by decide⟩
  unfold generate_report_exit
  split <;> simp_all
